import Mathlib

/-!
Shallow embedding of `src/research_seed/theoretical/larq_approximation_viewpoint_cifar.py`.

The script has four parts the claims are about:

* `get_cifar_data` (lines 12-24): loads the CIFAR-10 split and rescales the
  integer pixel values through `x / 127.5 - 1`.  We embed the rescaling map
  over exact rationals.
* `build_model` (lines 27-76): builds a fixed sequential layer stack from
  three boolean flags.  We embed the resulting stack as a list of layer
  specifications recording layer kind, kernel quantizer and trainable flag.
* `are_layers_equal` (lines 104-125): compares the weights of two models
  layer by layer, printing a diagnostic and returning `False` on the first
  mismatch.  We embed models as lists of named layers whose weights are
  lists of tensors (flattened to lists of scalar values), and the function
  as a pure function returning the boolean result together with the list of
  printed messages.  Scalar values follow IEEE comparison semantics: a NaN
  value compares unequal to everything, numeric values compare by value
  (floats are modelled as exact rationals).  The Python source compares the
  lengths with `is not`; for CPython ints in the cached range (all layer and
  weight counts here are below 20) this coincides with value inequality,
  which is how we embed it.
* `result_stats` (lines 172-217): computes mean, standard deviation and a
  one-way ANOVA over a hard-coded table of ten result triples.  We embed it
  as a function that is given the ambient environment (the file system the
  commented-out code once read from) and the framework routines it delegates
  to (square root for `np.std`, the F-distribution survival function for the
  p-value of `f_oneway`), and provably ignores the environment.
-/

namespace LarqApprox

/-- A scalar weight value with IEEE comparison semantics: either NaN or an
ordinary numeric value, modelled as an exact rational. -/
inductive FVal where
  | nan : FVal
  | val : ℚ → FVal
deriving DecidableEq

/-- Elementwise float equality as TensorFlow's `==` computes it: NaN is
unequal to everything (itself included); numeric values compare by value. -/
def FVal.feq : FVal → FVal → Bool
  | .val a, .val b => decide (a = b)
  | _, _ => false

/-- `tf.reduce_all(w1 == w2)` on two same-shape tensors flattened to lists:
true iff the tensors agree elementwise.  (On tensors of different shape
TensorFlow raises; `are_layers_equal` only ever compares weights of models
built from the same topology, where shapes agree pairwise.) -/
def tensorEq (w1 w2 : List FVal) : Bool :=
  w1.length == w2.length && (w1.zip w2).all fun q => q.1.feq q.2

/-- A Keras layer as `are_layers_equal` sees it: its `name` and its list of
weight tensors. -/
structure Layer where
  name : String
  weights : List (List FVal)
deriving DecidableEq

/-- A model as `are_layers_equal` sees it: its list of layers. -/
abbrev Model := List Layer

/-- Whether `pat` is equal to an initial segment of `s`. -/
def leadsWith : List Char → List Char → Bool
  | [], _ => true
  | _ :: _, [] => false
  | p :: ps, c :: cs => p == c && leadsWith ps cs

/-- Whether `pat` occurs as a contiguous segment of `s`
(Python's `pat in s` on strings). -/
def hasSub (pat : List Char) : List Char → Bool
  | [] => pat.isEmpty
  | c :: rest => leadsWith pat (c :: rest) || hasSub pat rest

/-- Python's `"batch_normalization" in l1.name and ignore_bm`
(line 117 of the source). -/
def isSkipped (ignore_bm : Bool) (l : Layer) : Bool :=
  hasSub "batch_normalization".data l.name.data && ignore_bm

/-- The inner loop of `are_layers_equal` (lines 120-123): walk the paired
weight tensors of one layer, print `weights not equal` and stop at the
first pair that fails `tf.reduce_all(w1 == w2)`. -/
def checkWeights : List (List FVal) → List (List FVal) → Bool × List String
  | w1 :: r1, w2 :: r2 =>
      if tensorEq w1 w2 then checkWeights r1 r2
      else (false, ["weights not equal"])
  | _, _ => (true, [])

/-- The outer loop of `are_layers_equal` (lines 111-123): walk the paired
layers; a pair with differing weight-tensor counts prints
`model weight length not equal` and stops; a batch-normalization layer is
skipped when `ignore_bm` is set; otherwise the paired weight tensors are
compared. -/
def checkLayers (ignore_bm : Bool) : Model → Model → Bool × List String
  | l1 :: r1, l2 :: r2 =>
      if l1.weights.length ≠ l2.weights.length then
        (false, ["model weight length not equal"])
      else if isSkipped ignore_bm l1 then checkLayers ignore_bm r1 r2
      else
        let c := checkWeights l1.weights l2.weights
        if c.1 then checkLayers ignore_bm r1 r2 else c
  | _, _ => (true, [])

/-- `are_layers_equal(m1, m2, ignore_bm)` (lines 104-125), returning the
boolean result together with the list of printed diagnostic messages. -/
def are_layers_equal (m1 m2 : Model) (ignore_bm : Bool) : Bool × List String :=
  if m1.length ≠ m2.length then (false, ["models layer length not equal"])
  else checkLayers ignore_bm m1 m2

/-- The two models have the same number of layers and pairwise the same
number of weight tensors per layer. -/
def sameStructure (m1 m2 : Model) : Bool :=
  m1.length == m2.length &&
    (m1.zip m2).all fun p => p.1.weights.length == p.2.weights.length

/-- The two models are structurally identical and all paired weight tensors
agree elementwise. -/
def sameWeights (m1 m2 : Model) : Bool :=
  sameStructure m1 m2 &&
    (m1.zip m2).all fun p =>
      (p.1.weights.zip p.2.weights).all fun q => tensorEq q.1 q.2

/-- Some paired layer that is not skipped has a paired weight tensor that
fails the elementwise equality. -/
def hasValueMismatch (ignore_bm : Bool) (m1 m2 : Model) : Bool :=
  (m1.zip m2).any fun p =>
    !(isSkipped ignore_bm p.1) &&
      (p.1.weights.zip p.2.weights).any fun q => !(tensorEq q.1 q.2)

/-- Some paired layer has differing numbers of weight tensors. -/
def hasCountMismatch (m1 m2 : Model) : Bool :=
  (m1.zip m2).any fun p => p.1.weights.length != p.2.weights.length

/-- No weight tensor of the model contains a NaN value. -/
def noNaN (m : Model) : Bool :=
  m.all fun l => l.weights.all fun w => w.all fun v => v != FVal.nan

lemma feq_refl (v : FVal) (h : v ≠ FVal.nan) : v.feq v = true := by
  cases v with
  | nan => exact absurd rfl h
  | val a => simp [FVal.feq]

lemma zip_self_eq_map {α : Type} (l : List α) :
    l.zip l = l.map fun a => (a, a) := by
  induction l with
  | nil => rfl
  | cons a t ih => simp [List.zip_cons_cons, ih]

lemma tensorEq_refl (w : List FVal) (h : ∀ v ∈ w, v ≠ FVal.nan) :
    tensorEq w w = true := by
  unfold tensorEq
  rw [Bool.and_eq_true]
  refine ⟨by simp, ?_⟩
  rw [zip_self_eq_map, List.all_eq_true]
  intro q hq
  obtain ⟨v, hv, rfl⟩ := List.mem_map.1 hq
  exact feq_refl v (h v hv)

lemma checkWeights_of_all (w1s w2s : List (List FVal))
    (h : ((w1s.zip w2s).all fun q => tensorEq q.1 q.2) = true) :
    checkWeights w1s w2s = (true, []) := by
  induction w1s generalizing w2s with
  | nil => cases w2s <;> rfl
  | cons w1 r1 ih =>
    cases w2s with
    | nil => rfl
    | cons w2 r2 =>
      rw [List.zip_cons_cons, List.all_cons, Bool.and_eq_true] at h
      rw [checkWeights, if_pos h.1]
      exact ih r2 h.2

lemma checkWeights_of_any (w1s w2s : List (List FVal))
    (h : ((w1s.zip w2s).any fun q => !(tensorEq q.1 q.2)) = true) :
    checkWeights w1s w2s = (false, ["weights not equal"]) := by
  induction w1s generalizing w2s with
  | nil => simp [List.zip_nil_left] at h
  | cons w1 r1 ih =>
    cases w2s with
    | nil => simp [List.zip_nil_right] at h
    | cons w2 r2 =>
      rw [List.zip_cons_cons, List.any_cons, Bool.or_eq_true] at h
      by_cases he : tensorEq w1 w2 = true
      · rw [checkWeights, if_pos he]
        rcases h with h | h
        · rw [he] at h; simp at h
        · exact ih r2 h
      · rw [checkWeights, if_neg he]

lemma checkWeights_fst_or (w1s w2s : List (List FVal)) :
    checkWeights w1s w2s = (true, []) ∨
      checkWeights w1s w2s = (false, ["weights not equal"]) := by
  induction w1s generalizing w2s with
  | nil => cases w2s <;> exact Or.inl rfl
  | cons w1 r1 ih =>
    cases w2s with
    | nil => exact Or.inl rfl
    | cons w2 r2 =>
      by_cases he : tensorEq w1 w2 = true
      · rw [checkWeights, if_pos he]; exact ih r2
      · rw [checkWeights, if_neg he]; exact Or.inr rfl

lemma checkLayers_of_all (b : Bool) (m1 m2 : Model)
    (h : ((m1.zip m2).all fun p =>
        p.1.weights.length == p.2.weights.length &&
          (isSkipped b p.1 ||
            (p.1.weights.zip p.2.weights).all fun q => tensorEq q.1 q.2)) = true) :
    checkLayers b m1 m2 = (true, []) := by
  induction m1 generalizing m2 with
  | nil => cases m2 <;> rfl
  | cons l1 r1 ih =>
    cases m2 with
    | nil => rfl
    | cons l2 r2 =>
      rw [List.zip_cons_cons, List.all_cons, Bool.and_eq_true] at h
      obtain ⟨hhead, htail⟩ := h
      rw [Bool.and_eq_true] at hhead
      obtain ⟨hlen, hrest⟩ := hhead
      have hlen' : l1.weights.length = l2.weights.length := by
        simpa using hlen
      rw [checkLayers, if_neg (by simp [hlen'])]
      by_cases hsk : isSkipped b l1 = true
      · rw [if_pos hsk]
        exact ih r2 htail
      · rw [if_neg hsk]
        rw [Bool.or_eq_true] at hrest
        rcases hrest with hrest | hrest
        · exact absurd hrest hsk
        · rw [checkWeights_of_all _ _ hrest]
          simp only [if_pos]
          exact ih r2 htail

lemma checkLayers_of_mismatch (b : Bool) (m1 m2 : Model)
    (hlen : ((m1.zip m2).all fun p =>
        p.1.weights.length == p.2.weights.length) = true)
    (h : hasValueMismatch b m1 m2 = true) :
    checkLayers b m1 m2 = (false, ["weights not equal"]) := by
  induction m1 generalizing m2 with
  | nil => simp [hasValueMismatch, List.zip_nil_left] at h
  | cons l1 r1 ih =>
    cases m2 with
    | nil => simp [hasValueMismatch, List.zip_nil_right] at h
    | cons l2 r2 =>
      rw [List.zip_cons_cons, List.all_cons, Bool.and_eq_true] at hlen
      obtain ⟨hl, hlt⟩ := hlen
      have hl' : l1.weights.length = l2.weights.length := by
        simpa using hl
      rw [hasValueMismatch, List.zip_cons_cons, List.any_cons,
        Bool.or_eq_true] at h
      rw [checkLayers, if_neg (by simp [hl'])]
      by_cases hsk : isSkipped b l1 = true
      · rw [if_pos hsk]
        rcases h with h | h
        · rw [hsk] at h; simp at h
        · exact ih r2 hlt h
      · rw [if_neg hsk]
        rcases h with h | h
        · rw [Bool.and_eq_true] at h
          rw [checkWeights_of_any _ _ h.2]
          simp
        · rcases checkWeights_fst_or l1.weights l2.weights with hc | hc
          · rw [hc]
            simp only [if_pos]
            exact ih r2 hlt h
          · rw [hc]
            simp

lemma checkLayers_of_count (b : Bool) (m1 m2 : Model)
    (h : hasCountMismatch m1 m2 = true) :
    (checkLayers b m1 m2).1 = false ∧ (checkLayers b m1 m2).2 ≠ [] := by
  induction m1 generalizing m2 with
  | nil => simp [hasCountMismatch, List.zip_nil_left] at h
  | cons l1 r1 ih =>
    cases m2 with
    | nil => simp [hasCountMismatch, List.zip_nil_right] at h
    | cons l2 r2 =>
      rw [hasCountMismatch, List.zip_cons_cons, List.any_cons,
        Bool.or_eq_true] at h
      by_cases hl : l1.weights.length = l2.weights.length
      · have htail : hasCountMismatch r1 r2 = true := by
          rcases h with h | h
          · simp [hl] at h
          · exact h
        rw [checkLayers, if_neg (by simp [hl])]
        by_cases hsk : isSkipped b l1 = true
        · rw [if_pos hsk]; exact ih r2 htail
        · rw [if_neg hsk]
          rcases checkWeights_fst_or l1.weights l2.weights with hc | hc
          · rw [hc]
            simp only [if_pos]
            exact ih r2 htail
          · rw [hc]; exact ⟨rfl, by simp⟩
      · rw [checkLayers, if_pos hl]
        exact ⟨rfl, by simp⟩

/-- The kinds of layers `build_model` adds to the sequential stack. -/
inductive LayerKind where
  | quantConv2D : LayerKind
  | maxPooling2D : LayerKind
  | batchNormalization : LayerKind
  | flatten : LayerKind
  | quantDense : LayerKind
  | activation : LayerKind
deriving DecidableEq, BEq

/-- A layer specification as `build_model` configures it: the layer kind and
the configuration the three flags can influence (`kernel_quantizer`,
`input_quantizer`, `trainable`).  Configuration that is constant across all
flag settings (filter counts, kernel sizes, `kernel_constraint="weight_clip"`,
`use_bias=False`, `scale=False` on normalization, the softmax activation) is
not recorded. -/
structure LayerSpec where
  kind : LayerKind
  kernel_quantizer : Option String
  input_quantizer : Option String
  trainable : Bool
deriving DecidableEq, BEq

/-- `build_model(use_binary_weights, only_train_bm_layers, use_bm_layers)`
(lines 27-76).  The `kwargs` dictionary (lines 30-35) sets
`input_quantizer="ste_sign"`, `kernel_quantizer="ste_sign"` iff
`use_binary_weights`, and `trainable = not only_train_bm_layers`; the first
convolution (lines 39-49) is written out without `kwargs` and hard-codes
`kernel_quantizer="ste_sign"` and no input quantizer; each
`model.add(BatchNormalization(...)) if use_bm_layers else None` line adds a
normalization layer only when `use_bm_layers` is set. -/
def build_model (use_binary_weights only_train_bm_layers use_bm_layers : Bool) :
    List LayerSpec :=
  let kw_kq : Option String := if use_binary_weights then some "ste_sign" else none
  let kw_tr : Bool := !only_train_bm_layers
  let bn : List LayerSpec :=
    if use_bm_layers then [⟨.batchNormalization, none, none, true⟩] else []
  [⟨.quantConv2D, some "ste_sign", none, !only_train_bm_layers⟩,
   ⟨.maxPooling2D, none, none, true⟩] ++ bn ++
  [⟨.quantConv2D, kw_kq, some "ste_sign", kw_tr⟩,
   ⟨.maxPooling2D, none, none, true⟩] ++ bn ++
  [⟨.quantConv2D, kw_kq, some "ste_sign", kw_tr⟩] ++ bn ++
  [⟨.flatten, none, none, true⟩,
   ⟨.quantDense, kw_kq, some "ste_sign", kw_tr⟩] ++ bn ++
  [⟨.quantDense, kw_kq, some "ste_sign", kw_tr⟩] ++ bn ++
  [⟨.activation, none, none, true⟩]

/-- The quantized layer kinds (the larq `QuantConv2D` and `QuantDense`
layers, the only layers with a kernel quantizer setting). -/
def isQuantLayer (l : LayerSpec) : Bool :=
  l.kind == LayerKind.quantConv2D || l.kind == LayerKind.quantDense

/-- The pixel rescaling of `get_cifar_data` (line 22):
`x / 127.5 - 1`, over exact rationals. -/
def normalizePixel (x : ℚ) : ℚ :=
  x / 127.5 - 1

/-- `get_cifar_data` (lines 12-24) restricted to its value-level content:
every train and test pixel is mapped through `x / 127.5 - 1`.  The dataset
download and the reshape are shape bookkeeping with no effect on values;
images are flattened to lists of raw integer pixel values. -/
def get_cifar_data (train_images test_images : List ℕ) : List ℚ × List ℚ :=
  (train_images.map fun x : ℕ => normalizePixel (x : ℚ),
   test_images.map fun x : ℕ => normalizePixel (x : ℚ))

/-- The hard-coded result table of `result_stats` (lines 173-184), ten
triples (binary accuracy, real accuracy, real retrained accuracy) copied
from `results.txt`. -/
def res : List (ℚ × ℚ × ℚ) :=
  [(0.5922, 0.1013, 0.5976),
   (0.5778, 0.1, 0.5897),
   (0.5561, 0.1, 0.588),
   (0.5657, 0.0879, 0.5985),
   (0.5557, 0.1168, 0.5905),
   (0.5838, 0.1, 0.5868),
   (0.5765, 0.0917, 0.6013),
   (0.5862, 0.1, 0.5939),
   (0.5863, 0.1, 0.6009),
   (0.5504, 0.0802, 0.5948)]

/-- `np.mean`: the arithmetic mean of a list of rationals. -/
def mean (xs : List ℚ) : ℚ :=
  xs.sum / xs.length

/-- The square of `np.std`: the population variance
(mean of squared deviations from the mean). -/
def popVariance (xs : List ℚ) : ℚ :=
  ((xs.map fun x => (x - mean xs) ^ 2).sum) / xs.length

/-- The F statistic of `scipy.stats.f_oneway` on a list of groups:
between-group mean square over within-group mean square. -/
def f_oneway (groups : List (List ℚ)) : ℚ :=
  let N : ℚ := ((groups.map List.length).sum : ℕ)
  let k : ℚ := (groups.length : ℕ)
  let grand : ℚ := ((groups.map List.sum).sum) / N
  let ssb : ℚ := (groups.map fun g => (g.length : ℚ) * (mean g - grand) ^ 2).sum
  let ssw : ℚ := (groups.map fun g => (g.map fun x => (x - mean g) ^ 2).sum).sum
  (ssb / (k - 1)) / (ssw / (N - k))

/-- The ambient state a Python function could read: the file system (the
commented-out experiment loop once wrote and read `results.txt`) and a
clock (used by `train_model` for log-directory names). -/
structure Env where
  files : String → Option String
  now : ℕ

/-- Everything `result_stats` computes and prints. -/
structure StatsOutput where
  bin : List ℚ
  real : List ℚ
  real_retrained : List ℚ
  mean_bin : ℚ
  std_bin : ℚ
  mean_real : ℚ
  std_real : ℚ
  mean_real_retrained : ℚ
  std_real_retrained : ℚ
  fstat : ℚ
  pvalue : ℚ
deriving DecidableEq

/-- `result_stats` (lines 172-217).  The ambient environment `env` is passed
in to make explicit that the function reads none of it; the framework
routines it delegates to are passed as `sqrt` (`np.std` is the square root
of the population variance) and `sf` (the F-distribution survival function
behind the p-value of `f_oneway`, applied to the F statistic and the degrees
of freedom `k - 1 = 2` and `N - k = 27`).  The three groups are built
exactly as the source loop does, by appending the first, second and third
component of each triple in turn. -/
def result_stats (sqrt : ℚ → ℚ) (sf : ℚ → ℕ → ℕ → ℚ) (env : Env) :
    StatsOutput :=
  let bin := res.foldl (fun acc r => acc ++ [r.1]) []
  let real := res.foldl (fun acc r => acc ++ [r.2.1]) []
  let real_retrained := res.foldl (fun acc r => acc ++ [r.2.2]) []
  let f := f_oneway [bin, real, real_retrained]
  { bin := bin
    real := real
    real_retrained := real_retrained
    mean_bin := mean bin
    std_bin := sqrt (popVariance bin)
    mean_real := mean real
    std_real := sqrt (popVariance real)
    mean_real_retrained := mean real_retrained
    std_real_retrained := sqrt (popVariance real_retrained)
    fstat := f
    pvalue := sf f 2 27 }

/-- A convolution layer with one two-element weight tensor. -/
def convLayer : Layer := ⟨"quant_conv2d", [[FVal.val 1, FVal.val 2]]⟩

/-- A normalization layer with one one-element weight tensor. -/
def bnLayer : Layer := ⟨"batch_normalization", [[FVal.val 3]]⟩

/-- A two-layer test model. -/
def mA : Model := [convLayer, bnLayer]

/-- Like `mA` with one element of the convolution weights changed. -/
def mC : Model := [⟨"quant_conv2d", [[FVal.val 1, FVal.val 5]]⟩, bnLayer]

/-- Like `mA` with the normalization-layer weights changed. -/
def mD : Model := [convLayer, ⟨"batch_normalization", [[FVal.val 99]]⟩]

/-- Like `mA` but the normalization layer has two weight tensors. -/
def mE : Model := [convLayer, ⟨"batch_normalization", [[FVal.val 3], [FVal.val 3]]⟩]

/-- A one-layer model (fewer layers than `mA`). -/
def mShort : Model := [convLayer]

/-- A model whose single weight tensor holds a NaN value. -/
def nanModel : Model := [⟨"quant_dense", [[FVal.nan]]⟩]

/-- Claim C1: for models with the same number of layers, the same number of
weight tensors per paired layer, and pairwise identical weight tensor
values, `are_layers_equal` returns `True` (printing nothing); and for
structurally identical models in which some paired weight tensor differs
outside any skipped normalization layer, it returns `False`, stopping at
the first mismatching tensor and printing the single diagnostic
`weights not equal`. -/
theorem c1_weight_equality (m1 m2 : Model) (b : Bool) :
    (sameWeights m1 m2 = true → are_layers_equal m1 m2 b = (true, [])) ∧
    (sameStructure m1 m2 = true → hasValueMismatch b m1 m2 = true →
      are_layers_equal m1 m2 b = (false, ["weights not equal"])) := by
  constructor
  · intro h
    rw [sameWeights, Bool.and_eq_true] at h
    obtain ⟨hs, hw⟩ := h
    rw [sameStructure, Bool.and_eq_true] at hs
    obtain ⟨hlen, hplen⟩ := hs
    have hlen' : m1.length = m2.length := by simpa using hlen
    rw [are_layers_equal, if_neg (by simp [hlen'])]
    apply checkLayers_of_all
    rw [List.all_eq_true] at hplen hw ⊢
    intro p hp
    rw [Bool.and_eq_true]
    exact ⟨hplen p hp, by rw [Bool.or_eq_true]; exact Or.inr (hw p hp)⟩
  · intro hs hm
    rw [sameStructure, Bool.and_eq_true] at hs
    obtain ⟨hlen, hplen⟩ := hs
    have hlen' : m1.length = m2.length := by simpa using hlen
    rw [are_layers_equal, if_neg (by simp [hlen'])]
    exact checkLayers_of_mismatch b m1 m2 hplen hm

/-- Claim C1, instantiated: a model equals itself, and a model differing
from `mA` in one convolution weight is reported unequal with the single
diagnostic message. -/
theorem c1_weight_equality_witness :
    are_layers_equal mA mA true = (true, []) ∧
    are_layers_equal mA mC false = (false, ["weights not equal"]) :=
  ⟨(c1_weight_equality mA mA true).1 (by decide),
   (c1_weight_equality mA mC false).2 (by decide) (by decide)⟩

/-- Claim C2: on structurally identical models whose weight differences are
confined to layers named `batch_normalization…`, `are_layers_equal` with
`ignore_bm=True` returns `True` (printing nothing). -/
theorem c2_ignore_bm_skips_value_diffs (m1 m2 : Model)
    (hs : sameStructure m1 m2 = true)
    (hw : ((m1.zip m2).all fun p =>
        hasSub "batch_normalization".data p.1.name.data ||
          (p.1.weights.zip p.2.weights).all fun q => tensorEq q.1 q.2) = true) :
    are_layers_equal m1 m2 true = (true, []) := by
  rw [sameStructure, Bool.and_eq_true] at hs
  obtain ⟨hlen, hplen⟩ := hs
  have hlen' : m1.length = m2.length := by simpa using hlen
  rw [are_layers_equal, if_neg (by simp [hlen'])]
  apply checkLayers_of_all
  rw [List.all_eq_true] at hplen hw ⊢
  intro p hp
  rw [Bool.and_eq_true]
  refine ⟨hplen p hp, ?_⟩
  have := hw p hp
  rw [Bool.or_eq_true] at this ⊢
  rcases this with h | h
  · exact Or.inl (by rw [isSkipped, h, Bool.and_true])
  · exact Or.inr h

/-- Claim C2, instantiated: `mA` and `mD` differ only in the weights of the
`batch_normalization` layer, and the check with `ignore_bm=True` accepts
them as equal. -/
theorem c2_ignore_bm_skips_value_diffs_witness :
    are_layers_equal mA mD true = (true, []) :=
  c2_ignore_bm_skips_value_diffs mA mD (by decide) (by decide)

/-- Claim C4: models with differing layer counts make `are_layers_equal`
print `models layer length not equal` and return `False`; models with equal
layer counts but some paired layer with differing weight-tensor counts make
it return `False` with a printed diagnostic.  The embedding is a total pure
function, so no exception is raised and neither model is modified. -/
theorem c4_structural_mismatch_reported (m1 m2 : Model) (b : Bool) :
    (m1.length ≠ m2.length →
      are_layers_equal m1 m2 b = (false, ["models layer length not equal"])) ∧
    (m1.length = m2.length → hasCountMismatch m1 m2 = true →
      (are_layers_equal m1 m2 b).1 = false ∧
        (are_layers_equal m1 m2 b).2 ≠ []) := by
  constructor
  · intro h
    rw [are_layers_equal, if_pos h]
  · intro hlen h
    rw [are_layers_equal, if_neg (by simp [hlen])]
    exact checkLayers_of_count b m1 m2 h

/-- Claim C4, instantiated: a missing layer and a normalization layer with
an extra weight tensor are both reported with a diagnostic and `False`. -/
theorem c4_structural_mismatch_reported_witness :
    are_layers_equal mA mShort false = (false, ["models layer length not equal"]) ∧
    ((are_layers_equal mA mE false).1 = false ∧
      (are_layers_equal mA mE false).2 ≠ []) :=
  ⟨(c4_structural_mismatch_reported mA mShort false).1 (by decide),
   (c4_structural_mismatch_reported mA mE false).2 (by decide) (by decide)⟩

/-- Claim C9: even with `ignore_bm=True`, a paired normalization layer with
differing weight-tensor counts makes `are_layers_equal` return `False`: the
per-layer weight-count check (line 112) runs before the
batch-normalization skip (line 117). -/
theorem c9_count_check_precedes_skip (m1 m2 : Model)
    (hlen : m1.length = m2.length)
    (hbn : ((m1.zip m2).any fun p =>
        hasSub "batch_normalization".data p.1.name.data &&
          p.1.weights.length != p.2.weights.length) = true) :
    (are_layers_equal m1 m2 true).1 = false := by
  have hc : hasCountMismatch m1 m2 = true := by
    rw [hasCountMismatch, List.any_eq_true]
    rw [List.any_eq_true] at hbn
    obtain ⟨p, hp, hpred⟩ := hbn
    rw [Bool.and_eq_true] at hpred
    exact ⟨p, hp, hpred.2⟩
  rw [are_layers_equal, if_neg (by simp [hlen])]
  exact (checkLayers_of_count true m1 m2 hc).1

/-- Claim C9, instantiated: `mA` and `mE` differ only in the number of
weight tensors of the `batch_normalization` layer, and the check with
`ignore_bm=True` still rejects them. -/
theorem c9_count_check_precedes_skip_witness :
    (are_layers_equal mA mE true).1 = false :=
  c9_count_check_precedes_skip mA mE (by decide) (by decide)

/-- Claim C10: `are_layers_equal(m, m, ignore_bm)` returns `True` (printing
nothing) for both values of `ignore_bm` on every model whose weight tensors
contain no NaN, and the no-NaN precondition is necessary: on a model whose
single weight tensor holds NaN, the self-comparison returns `False` for
both flag values, because the check uses elementwise IEEE equality. -/
theorem c10_reflexivity :
    (∀ (m : Model) (b : Bool), noNaN m = true →
      are_layers_equal m m b = (true, [])) ∧
    (are_layers_equal nanModel nanModel false).1 = false ∧
    (are_layers_equal nanModel nanModel true).1 = false := by
  refine ⟨?_, by decide, by decide⟩
  intro m b h
  rw [noNaN, List.all_eq_true] at h
  rw [are_layers_equal, if_neg (by simp)]
  apply checkLayers_of_all
  rw [zip_self_eq_map, List.all_eq_true]
  intro p hp
  obtain ⟨l, hl, rfl⟩ := List.mem_map.1 hp
  rw [Bool.and_eq_true]
  refine ⟨by simp, ?_⟩
  rw [Bool.or_eq_true]
  refine Or.inr ?_
  rw [zip_self_eq_map, List.all_eq_true]
  intro q hq
  obtain ⟨w, hw, rfl⟩ := List.mem_map.1 hq
  apply tensorEq_refl
  intro v hv
  have := h l hl
  rw [List.all_eq_true] at this
  have := this w hw
  rw [List.all_eq_true] at this
  simpa using this v hv

/-- Claim C10, instantiated: the NaN-free model `mD` compares equal to
itself. -/
theorem c10_reflexivity_witness :
    are_layers_equal mD mD false = (true, []) :=
  c10_reflexivity.1 mD false (by decide)

/-- Claim C3 as stated is false: with `use_binary_weights=False` the first
convolution still applies the hard-coded `ste_sign` kernel quantizer
(lines 39-49 bypass the `kwargs` dictionary). -/
theorem c3_counterexample :
    ((build_model false false false).all fun l =>
        l.kernel_quantizer == none) = false ∧
    ((build_model false false false).map fun l => l.kernel_quantizer).head? =
      some (some "ste_sign") := by
  exact ⟨rfl, rfl⟩

/-- Claim C3, amended: `use_binary_weights` controls the kernel quantizer of
every quantized layer except the first convolution, which always uses
`ste_sign`; `only_train_bm_layers` controls the `trainable` flag of all five
quantized layers (the first included); `use_bm_layers` controls the presence
of the five normalization layers; no non-quantized layer has a kernel
quantizer. -/
theorem c3_flag_semantics (b1 b2 b3 : Bool) :
    (((build_model b1 b2 b3).filter isQuantLayer).map fun l =>
        l.kernel_quantizer) =
      some "ste_sign" ::
        List.replicate 4 (if b1 then some "ste_sign" else none) ∧
    (((build_model b1 b2 b3).filter isQuantLayer).map fun l => l.trainable) =
      List.replicate 5 (!b2) ∧
    (((build_model b1 b2 b3).filter fun l =>
        l.kind == LayerKind.batchNormalization).length =
      if b3 then 5 else 0) ∧
    ((build_model b1 b2 b3).all fun l =>
        isQuantLayer l || l.kernel_quantizer == none) = true := by
  cases b1 <;> cases b2 <;> cases b3 <;> exact ⟨rfl, rfl, rfl, rfl⟩

/-- Claim C5: the layer-kind sequence of the built model, for every flag
combination: the five normalization layers (one after each pooling layer or
quantized block) are present exactly when `use_bm_layers` is set, and absent
otherwise. -/
theorem c5_bn_presence (b1 b2 b3 : Bool) :
    ((build_model b1 b2 b3).map fun l => l.kind) =
      (if b3 then
        [LayerKind.quantConv2D, LayerKind.maxPooling2D,
         LayerKind.batchNormalization, LayerKind.quantConv2D,
         LayerKind.maxPooling2D, LayerKind.batchNormalization,
         LayerKind.quantConv2D, LayerKind.batchNormalization,
         LayerKind.flatten, LayerKind.quantDense,
         LayerKind.batchNormalization, LayerKind.quantDense,
         LayerKind.batchNormalization, LayerKind.activation]
       else
        [LayerKind.quantConv2D, LayerKind.maxPooling2D,
         LayerKind.quantConv2D, LayerKind.maxPooling2D,
         LayerKind.quantConv2D, LayerKind.flatten,
         LayerKind.quantDense, LayerKind.quantDense,
         LayerKind.activation]) ∧
    (((build_model b1 b2 b3).filter fun l =>
        l.kind == LayerKind.batchNormalization).length =
      if b3 then 5 else 0) := by
  cases b1 <;> cases b2 <;> cases b3 <;> exact ⟨rfl, rfl⟩

/-- Claim C6: `result_stats` is pure and deterministic over its hard-coded
input: for any two ambient environments (file system, clock) the outputs —
groups, means, standard deviations, and the ANOVA F and p values — are
identical, the library routines `sqrt` and `sf` being the fixed functions
they are.  The function reads nothing but the literal table `res`. -/
theorem c6_result_stats_deterministic (sqrt : ℚ → ℚ) (sf : ℚ → ℕ → ℕ → ℚ)
    (e1 e2 : Env) :
    result_stats sqrt sf e1 = result_stats sqrt sf e2 := rfl

/-- Bounds for the pixel rescaling map on a single in-range pixel. -/
lemma normalizePixel_bounds (n : ℕ) (h : n ≤ 255) :
    -1 ≤ normalizePixel n ∧ normalizePixel n ≤ 1 := by
  have hn : (0 : ℚ) ≤ (n : ℚ) := Nat.cast_nonneg n
  have hn' : (n : ℚ) ≤ 255 := by exact_mod_cast h
  constructor
  · rw [normalizePixel]
    have hd : (0 : ℚ) ≤ (n : ℚ) / 127.5 := by positivity
    linarith
  · rw [normalizePixel]
    have hd : (n : ℚ) / 127.5 ≤ 2 := by
      rw [div_le_iff₀ (by norm_num : (0 : ℚ) < 127.5)]
      linarith
    linarith

/-- Claim C7: `get_cifar_data` maps every integer pixel value in `[0, 255]`
through `x / 127.5 - 1`, so every returned image value lies in `[-1, 1]`,
with `0` mapped to `-1` and `255` mapped to `+1`. -/
theorem c7_pixel_range (train_images test_images : List ℕ)
    (htr : ∀ n ∈ train_images, n ≤ 255)
    (hte : ∀ n ∈ test_images, n ≤ 255) :
    (∀ y ∈ (get_cifar_data train_images test_images).1, -1 ≤ y ∧ y ≤ 1) ∧
    (∀ y ∈ (get_cifar_data train_images test_images).2, -1 ≤ y ∧ y ≤ 1) ∧
    normalizePixel 0 = -1 ∧ normalizePixel 255 = 1 := by
  refine ⟨?_, ?_, by norm_num [normalizePixel], by norm_num [normalizePixel]⟩
  · intro y hy
    obtain ⟨n, hn, rfl⟩ := List.mem_map.1 hy
    exact normalizePixel_bounds n (htr n hn)
  · intro y hy
    obtain ⟨n, hn, rfl⟩ := List.mem_map.1 hy
    exact normalizePixel_bounds n (hte n hn)

/-- Claim C7, instantiated at the pixel value 128. -/
theorem c7_pixel_range_witness :
    -1 ≤ normalizePixel (128 : ℕ) ∧ normalizePixel (128 : ℕ) ≤ 1 :=
  (c7_pixel_range [128] [] (by decide) (by decide)).1
    (normalizePixel (128 : ℕ)) (by simp [get_cifar_data])

/-- Claim C8: `result_stats` consumes only the literal table `res` (its
output is the same under an empty file system, i.e. it does no file I/O),
splits the ten triples positionally into three ten-element groups, and its
outputs are exactly the mean, standard deviation and one-way ANOVA of those
groups; the three group means evaluate to the stated rationals. -/
theorem c8_result_stats_pipeline (sqrt : ℚ → ℚ) (sf : ℚ → ℕ → ℕ → ℚ)
    (env : Env) :
    (result_stats sqrt sf env).bin = res.map (fun r => r.1) ∧
    (result_stats sqrt sf env).real = res.map (fun r => r.2.1) ∧
    (result_stats sqrt sf env).real_retrained = res.map (fun r => r.2.2) ∧
    (result_stats sqrt sf env).bin.length = 10 ∧
    (result_stats sqrt sf env).real.length = 10 ∧
    (result_stats sqrt sf env).real_retrained.length = 10 ∧
    (result_stats sqrt sf env).mean_bin =
      mean ((result_stats sqrt sf env).bin) ∧
    (result_stats sqrt sf env).std_bin =
      sqrt (popVariance ((result_stats sqrt sf env).bin)) ∧
    (result_stats sqrt sf env).mean_real =
      mean ((result_stats sqrt sf env).real) ∧
    (result_stats sqrt sf env).std_real =
      sqrt (popVariance ((result_stats sqrt sf env).real)) ∧
    (result_stats sqrt sf env).mean_real_retrained =
      mean ((result_stats sqrt sf env).real_retrained) ∧
    (result_stats sqrt sf env).std_real_retrained =
      sqrt (popVariance ((result_stats sqrt sf env).real_retrained)) ∧
    (result_stats sqrt sf env).fstat =
      f_oneway [(result_stats sqrt sf env).bin,
        (result_stats sqrt sf env).real,
        (result_stats sqrt sf env).real_retrained] ∧
    (result_stats sqrt sf env).pvalue =
      sf ((result_stats sqrt sf env).fstat) 2 27 ∧
    mean (res.map fun r => r.1) = 0.57307 ∧
    mean (res.map fun r => r.2.1) = 0.09779 ∧
    mean (res.map fun r => r.2.2) = 0.5942 ∧
    result_stats sqrt sf env = result_stats sqrt sf ⟨fun _ => none, 0⟩ := by
  refine ⟨rfl, rfl, rfl, rfl, rfl, rfl, rfl, rfl, rfl, rfl, rfl, rfl, rfl,
    rfl, by norm_num [res, mean], by norm_num [res, mean],
    by norm_num [res, mean], rfl⟩

end LarqApprox
